import Mathlib

/-!
Verification of the BOAMP search back end (src/Back-end/app.py): a shallow
embedding of the query-resolution and search-orchestration core, and proofs
about it.  Python strings become `String`, `Optional[str]` becomes
`Option String` (with Python truthiness — `None` and `""` both falsy —
modelled explicitly where the source tests truthiness), JSON values become
the `Json` inductive below, wall-clock times (`time.time()`) become `Rat`,
exceptions become `Except`, and the network boundary becomes an explicit
`Except PyErr Json` outcome parameter.  Module-level configuration globals
(`ODS_BASE`, `DATASET_ID`, `ODS_APIKEY`, `PREFER_EXPLORE`,
`RESULTS_CACHE_TTL_SECONDS`) become parameters, since they are set once from
the environment.
-/

namespace Boamp

/-- Python `str.replace("'", "''")` as used by the query builder
(app.py line 515 and the inline escapes at lines 578, 594, 599): replacing
a one-character pattern is per-character doubling. -/
def escapeQuotes (v : String) : String :=
  String.mk ((v.data.map (fun c => if c = '\x27' then ['\x27', '\x27'] else [c])).flatten)

/-- Python `str.strip()`: drop leading and trailing whitespace. -/
def pyStrip (s : String) : String :=
  String.mk (((s.data.dropWhile Char.isWhitespace).reverse.dropWhile
    Char.isWhitespace).reverse)

/-- Python `sep.join(...)` / the separator-interleaving of
`urlencode`, `" OR ".join`, `" AND ".join`, `",".join`. -/
def joinSep (sep : String) : List String → String
  | [] => ""
  | [x] => x
  | x :: xs => x ++ sep ++ joinSep sep xs

/-- Python `s or default` for strings: the empty string is falsy. -/
def orD (s d : String) : String := if s = "" then d else s

/-- Strip all trailing `'/'` characters: Python `s.rstrip("/")`. -/
def rstripSlash (s : String) : String :=
  String.mk ((s.data.reverse.dropWhile (fun c => c = '/')).reverse)

/-- Whether `pat` is a prefix of `s`, on character lists. -/
def charsStartWith : List Char → List Char → Bool
  | _, [] => true
  | [], _ :: _ => false
  | c :: rest, p :: ps => c == p && charsStartWith rest ps

/-- Whether `pat` occurs contiguously in `s`, on character lists. -/
def charsHasSub : List Char → List Char → Bool
  | _, [] => true
  | [], _ :: _ => false
  | c :: rest, p :: ps => charsStartWith (c :: rest) (p :: ps) || charsHasSub rest (p :: ps)

/-- Python `pat in s` (substring containment). -/
def strContains (s pat : String) : Bool := charsHasSub s.data pat.data

/-- Python `s.endswith(pat)`. -/
def strEndsWith (s pat : String) : Bool :=
  charsStartWith s.data.reverse pat.data.reverse

/-- Split at the first occurrence of `pat`: `some (before, after)`, or
`none` when `pat` does not occur. -/
def breakOnAux (pat : List Char) : List Char → Option (List Char × List Char)
  | [] => none
  | c :: rest =>
    if charsStartWith (c :: rest) pat then some ([], (c :: rest).drop pat.length)
    else match breakOnAux pat rest with
      | some (pre, post) => some (c :: pre, post)
      | none => none

/-- JSON values, as far as the embedded code observes them.  Numbers are
modelled as integers: no claim depends on float payloads. -/
inductive Json where
  | null
  | bool (b : Bool)
  | int (n : Int)
  | str (s : String)
  | arr (xs : List Json)
  | obj (kvs : List (String × Json))

/-- Python truthiness of a JSON value (`if value:`): `None`, `False`, `0`,
`""`, `[]`, `{}` are falsy. -/
def Json.truthy : Json → Bool
  | .null => false
  | .bool b => b
  | .int n => n != 0
  | .str s => s != ""
  | .arr xs => !xs.isEmpty
  | .obj kvs => !kvs.isEmpty

/-- Resolved dataset column names (app.py lines 296-330), with the
dataclass defaults. -/
structure ResolvedFields where
  date : String := "record_timestamp"
  title : String := "title"
  url : String := "permalink"
  cpv : String := "cpv"
  dept : String := "departement"
  buyer : String := "acheteur"
  description : String := "description"
  ref : String := "id"
  serviceCategory : String := "categorie_services"
  nature : String := "nature"
  deadline : String := "date_limite_remise_offres"
  buyerAddress : String := "nom_et_adresse_officiels_de_l_organisme_acheteur"
  budget : String := "montant"
  procedure : String := "procedure"
  marketType : String := "type_marche"
  place : String := "lieu_execution"
  deriving DecidableEq, Repr

/-- `FIELD_CANDIDATES` (app.py lines 180-293): ordered candidate column
names per semantic slot.  Keys other than the sixteen used map to `[]`
(the Python dict is only ever indexed at these sixteen keys). -/
def FIELD_CANDIDATES : String → List String
  | "date" =>
    ["dateparution", "date_publication", "datepublication", "date",
     "publication_date", "record_timestamp"]
  | "title" => ["intitule", "objet", "titre", "title", "intitulé", "objet_du_marche"]
  | "url" =>
    ["url", "lien", "pageurl", "url_avis", "url_detail_avis", "avis_url",
     "link", "permalink", "permalien", "permalink_avis", "permalien_avis"]
  | "cpv" => ["cpv", "cpvs", "code_cpv", "codes_cpv", "cpv_principal"]
  | "dept" =>
    ["lieu_execution_code", "code_departement", "departement", "code_dept",
     "dept", "code_insee_departement"]
  | "buyer" => ["acheteur", "acheteur_nom", "acheteur_name", "organisme", "acheteur.principal"]
  | "description" => ["description", "objet", "objet_detail", "objetcomplet", "texte"]
  | "ref" =>
    ["reference", "référence", "numero", "num_avis", "identifiant", "no_avis",
     "num_annonce", "id", "recordid"]
  | "serviceCategory" =>
    ["categorie_services", "categorie_service", "categorie",
     "categorie_de_services", "category_service", "service_category"]
  | "nature" => ["nature", "nature_avis", "type_avis", "type", "etat", "etat_avis"]
  | "deadline" =>
    ["date_limite_remise_offres", "date_limite_de_reception_des_offres",
     "date_limite_offres", "date_reception_offres", "date_reponse",
     "date_limite", "date_depot_offre", "deadline"]
  | "buyerAddress" =>
    ["nom_et_adresse_officiels_de_l_organisme_acheteur",
     "nom_et_adresse_officiels_de_lorganisme_acheteur", "acheteur_adresse",
     "adresse_acheteur", "organisme_adresse", "acheteur_coordonnees",
     "coordonnees_acheteur", "adresse"]
  | "budget" => ["montant", "montant_estime", "valeur", "budget", "amount"]
  | "procedure" => ["procedure", "type_procedure", "mode_de_passation", "procedure_type"]
  | "marketType" => ["type_marche", "type_du_marche", "type"]
  | "place" =>
    ["lieu_execution", "lieu_execution_nom", "lieu_dexecution", "localisation",
     "ville", "commune"]
  | _ => []

/-- `dict.get(k, d)` on a JSON value; a non-dict receiver raises
(`AttributeError`), modelled as `Except.error`. -/
def Json.getExc (j : Json) (k : String) (d : Json) : Except Unit Json :=
  match j with
  | .obj kvs => .ok (((kvs.find? (fun p => p.1 == k)).map Prod.snd).getD d)
  | _ => .error ()

/-- One element of the name-extraction comprehension in `resolve_fields`
(app.py line 468): `f.get("name", "")`.  A non-string name can never equal
a candidate, so it is collapsed to `""` (which no candidate list contains),
preserving the observable behaviour of `pick`. -/
def fieldNameOf (f : Json) : Except Unit String :=
  match f.getExc "name" (.str "") with
  | .error () => .error ()
  | .ok (.str s) => .ok s
  | .ok _ => .ok ""

/-- The `names` computation of `resolve_fields` (app.py lines 466-470):
`[f.get("name", "") for f in (schema.get("dataset", {}).get("fields", []) or [])]`
inside `try: ... except Exception: names = []`.  Iterating a truthy
non-list `fields` value either yields non-dict elements (string, whose
characters have no `.get`) or is a `TypeError`; both land in the `except`
branch, i.e. `[]`. -/
def schemaNames (schema : Json) : List String :=
  let attempt : Except Unit (List String) := do
    let ds ← schema.getExc "dataset" (.obj [])
    let fs ← ds.getExc "fields" (.arr [])
    let fsOr : Json := if fs.truthy then fs else .arr []
    match fsOr with
    | .arr xs => xs.mapM fieldNameOf
    | _ => .error ()
  match attempt with
  | .ok names => names
  | .error () => []

/-- The `pick` helper of `resolve_fields` (app.py lines 472-476): first
candidate present in `names`, else the fallback. -/
def pick (candidates : List String) (names : List String) (fallback : String) : String :=
  match candidates with
  | [] => fallback
  | c :: rest => if names.contains c then c else pick rest names fallback

/-- `resolve_fields` (app.py lines 446-495). -/
def resolve_fields (schema : Json) : ResolvedFields :=
  let names := schemaNames schema
  { date := pick (FIELD_CANDIDATES "date") names "record_timestamp"
    title := pick (FIELD_CANDIDATES "title") names "title"
    url := pick (FIELD_CANDIDATES "url") names "permalink"
    cpv := pick (FIELD_CANDIDATES "cpv") names "cpv"
    dept := pick (FIELD_CANDIDATES "dept") names "departement"
    buyer := pick (FIELD_CANDIDATES "buyer") names "acheteur"
    description := pick (FIELD_CANDIDATES "description") names "description"
    ref := pick (FIELD_CANDIDATES "ref") names "id"
    serviceCategory := pick (FIELD_CANDIDATES "serviceCategory") names "categorie_services"
    nature := pick (FIELD_CANDIDATES "nature") names "nature"
    deadline := pick (FIELD_CANDIDATES "deadline") names "date_limite_remise_offres"
    buyerAddress := pick (FIELD_CANDIDATES "buyerAddress") names
      "nom_et_adresse_officiels_de_l_organisme_acheteur"
    budget := pick (FIELD_CANDIDATES "budget") names "montant"
    procedure := pick (FIELD_CANDIDATES "procedure") names "procedure"
    marketType := pick (FIELD_CANDIDATES "marketType") names "type_marche"
    place := pick (FIELD_CANDIDATES "place") names "lieu_execution" }

/-! ### URL encoding (urllib.parse.urlencode with quote_plus) -/

/-- Uppercase hexadecimal digit for `n < 16`. -/
def hexDigit (n : Nat) : Char :=
  if n < 10 then Char.ofNat (48 + n) else Char.ofNat (55 + n)

/-- UTF-8 bytes of a code point (as `Nat`s). -/
def utf8Bytes (n : Nat) : List Nat :=
  if n < 128 then [n]
  else if n < 2048 then [192 + n / 64, 128 + n % 64]
  else if n < 65536 then [224 + n / 4096, 128 + (n / 64) % 64, 128 + n % 64]
  else [240 + n / 262144, 128 + (n / 4096) % 64, 128 + (n / 64) % 64, 128 + n % 64]

/-- `urllib.parse.quote_plus` on one byte: unreserved bytes pass through,
space becomes `+`, everything else `%XX`. -/
def quotePlusByte (n : Nat) : String :=
  if (65 ≤ n ∧ n ≤ 90) ∨ (97 ≤ n ∧ n ≤ 122) ∨ (48 ≤ n ∧ n ≤ 57)
      ∨ n = 95 ∨ n = 46 ∨ n = 45 ∨ n = 126 then
    String.mk [Char.ofNat n]
  else if n = 32 then "+"
  else String.mk ['%', hexDigit (n / 16), hexDigit (n % 16)]

/-- `urllib.parse.quote_plus` over the UTF-8 encoding of a string. -/
def quotePlus (s : String) : String :=
  String.join (s.data.map (fun c => String.join ((utf8Bytes c.toNat).map quotePlusByte)))

/-- `urllib.parse.urlencode` on a list of (key, value) pairs. -/
def urlencodePairs (ps : List (String × String)) : String :=
  joinSep "&" (ps.map (fun p => quotePlus p.1 ++ "=" ++ quotePlus p.2))

/-! ### Query builders (dual dialect) -/

/-- `_safe_like_fragment` (app.py lines 498-516). -/
def safe_like_fragment (field : String) (value : String) : String :=
  "string(" ++ field ++ ") LIKE '%" ++ escapeQuotes value ++ "%'"

/-- The CPV-whitelist `where` clause of `build_explore_url`
(app.py lines 567-574): ORed LIKE fragments in one parenthesized group,
empty-after-strip entries dropped; `[]` when nothing remains. -/
def cpvWhitelistClauses (cpvField : String) (whitelist : List String) : List String :=
  let parts := (whitelist.filter (fun c => pyStrip c != "")).map
    (fun c => safe_like_fragment cpvField c)
  if parts != [] then ["(" ++ joinSep " OR " parts ++ ")"] else []

/-- The CPV-prefix clause (app.py lines 577-581). -/
def cpvPrefixClause (cpvField : String) (cpvPfx : String) : String :=
  let pfx := escapeQuotes cpvPfx
  "(string(" ++ cpvField ++ ") LIKE '" ++ pfx ++ "%' OR string(" ++ cpvField
    ++ ") LIKE '%" ++ pfx ++ "%')"

/-- The department `IN` clause (app.py lines 584-586): codes are embedded
verbatim between single quotes (the source applies no escaping here). -/
def deptClause (deptField : String) (deptCodes : List String) : String :=
  let inList := joinSep "," (deptCodes.map (fun c => "'" ++ c ++ "'"))
  "(" ++ deptField ++ " IN (" ++ inList ++ "))"

/-- The service-category equality clause (app.py lines 593-595). -/
def serviceCategoryClause (catField : String) (catVal : String) : String :=
  catField ++ " = '" ++ escapeQuotes catVal ++ "'"

/-- The nature `IN` clause (app.py lines 598-601): `[]` when every value is
empty after strip. -/
def natureClauses (natureField : String) (natureIn : List String) : List String :=
  let values := (natureIn.filter (fun v => pyStrip v != "")).map
    (fun v => "'" ++ escapeQuotes v ++ "'")
  if values != [] then
    ["string(" ++ natureField ++ ") IN (" ++ joinSep "," values ++ ")"]
  else []

/-- The lower date bound clause (app.py lines 605-606): the bound is
embedded verbatim (no escaping in the source). -/
def dateFromClause (dateField : String) (d : String) : String :=
  dateField ++ " >= '" ++ d ++ "'"

/-- The upper date bound clause (app.py lines 607-608): embedded verbatim. -/
def dateToClause (dateField : String) (d : String) : String :=
  dateField ++ " <= '" ++ d ++ "'"

/-- The `where` parts of `build_explore_url` (app.py lines 564-608), in
source order. -/
def exploreWhereParts
    (cpvPfx : String) (deptCodes : List String)
    (buyer : Option String) (serviceCategoryEquals : Option String)
    (cpvWhitelist : Option (List String)) (natureIn : Option (List String))
    (dateFrom dateTo : Option String) (fields : ResolvedFields) : List String :=
  let w1 := match cpvWhitelist with
    | some l => if l != [] then cpvWhitelistClauses (orD fields.cpv "cpv") l else []
    | none => []
  let w2 := if cpvPfx != "" then [cpvPrefixClause (orD fields.cpv "cpv") cpvPfx] else []
  let w3 := if deptCodes != [] then [deptClause (orD fields.dept "departement") deptCodes] else []
  let w4 := match buyer with
    | some b => if b != "" ∧ pyStrip b != "" then [safe_like_fragment (orD fields.buyer "acheteur") b] else []
    | none => []
  let w5 := match serviceCategoryEquals with
    | some s => if s != "" then [serviceCategoryClause (orD fields.serviceCategory "categorie_services") s] else []
    | none => []
  let w6 := match natureIn with
    | some l => if l != [] then natureClauses (orD fields.nature "nature") l else []
    | none => []
  let dateField := orD fields.date "record_timestamp"
  let w7 := match dateFrom with
    | some d => if d != "" then [dateFromClause dateField d] else []
    | none => []
  let w8 := match dateTo with
    | some d => if d != "" then [dateToClause dateField d] else []
    | none => []
  w1 ++ w2 ++ w3 ++ w4 ++ w5 ++ w6 ++ w7 ++ w8

/-- The `order_by` parameter of `build_explore_url` (app.py lines 614-620). -/
def exploreOrderBy (sort : Option String) (keywords : String)
    (dateField : String) (fields : ResolvedFields) : String × String :=
  if sort = some "deadline" ∧ fields.deadline != "" then
    ("order_by", "-" ++ fields.deadline)
  else if sort = some "relevance" ∧ keywords != "" ∧ pyStrip keywords != "" then
    ("order_by", "relevance")
  else
    ("order_by", "-" ++ dateField)

/-- The full parameter list of `build_explore_url` (app.py lines 560-625),
in source order. -/
def build_explore_params
    (apikey : Option String)
    (keywords : String) (cpvPfx : String) (deptCodes : List String)
    (buyer : Option String) (serviceCategoryEquals : Option String)
    (cpvWhitelist : Option (List String)) (natureIn : Option (List String))
    (sort : Option String) (dateFrom dateTo : Option String)
    (page pageSize : Int) (fields : ResolvedFields) : List (String × String) :=
  let qParams := if keywords != "" ∧ pyStrip keywords != "" then [("q", pyStrip keywords)] else []
  let whereParts := exploreWhereParts cpvPfx deptCodes buyer serviceCategoryEquals
    cpvWhitelist natureIn dateFrom dateTo fields
  let whereParams :=
    if whereParts != [] then [("where", joinSep " AND " whereParts)] else []
  let dateField := orD fields.date "record_timestamp"
  let orderParams := [exploreOrderBy sort keywords dateField fields]
  let pageParams := [("limit", toString pageSize), ("offset", toString ((page - 1) * pageSize))]
  let keyParams := match apikey with
    | some k => if k != "" then [("apikey", k)] else []
    | none => []
  qParams ++ whereParams ++ orderParams ++ pageParams ++ keyParams

/-- `build_explore_url` (app.py lines 519-629). -/
def build_explore_url
    (odsBase datasetId : String) (apikey : Option String)
    (keywords : String) (cpvPfx : String) (deptCodes : List String)
    (buyer : Option String) (serviceCategoryEquals : Option String)
    (cpvWhitelist : Option (List String)) (natureIn : Option (List String))
    (sort : Option String) (dateFrom dateTo : Option String)
    (page pageSize : Int) (fields : ResolvedFields) : String :=
  let params := build_explore_params apikey keywords cpvPfx deptCodes buyer
    serviceCategoryEquals cpvWhitelist natureIn sort dateFrom dateTo page pageSize fields
  rstripSlash odsBase ++ "/api/explore/v2.1/catalog/datasets/" ++ datasetId
    ++ "/records?" ++ urlencodePairs params

/-- The parameter list of `build_records_v1_url` (app.py lines 632-679),
in source order. -/
def build_records_v1_params
    (datasetId : String) (apikey : Option String)
    (q : Option String) (deptCodes : List String) (buyer : Option String)
    (cpvWhitelist : Option (List String)) (serviceCategoryEquals : Option String)
    (page pageSize : Int) (fields : ResolvedFields) : List (String × String) :=
  let base := [("dataset", datasetId), ("rows", toString pageSize),
    ("start", toString ((page - 1) * pageSize))]
  let qParams := match q with
    | some s => if s != "" then [("q", s)] else []
    | none => []
  let cpvParams := match cpvWhitelist with
    | some l => if l != [] then l.map (fun c => ("refine." ++ orD fields.cpv "cpv", c)) else []
    | none => []
  let catParams := match serviceCategoryEquals with
    | some s => if s != "" then [("refine." ++ orD fields.serviceCategory "categorie_services", s)] else []
    | none => []
  let deptParams :=
    if deptCodes != [] then deptCodes.map (fun d => ("refine." ++ orD fields.dept "code_departement", d)) else []
  let buyerParams := match buyer with
    | some b => if b != "" then [("refine." ++ orD fields.buyer "acheteur", b)] else []
    | none => []
  let keyParams := match apikey with
    | some k => if k != "" then [("apikey", k)] else []
    | none => []
  base ++ qParams ++ cpvParams ++ catParams ++ deptParams ++ buyerParams ++ keyParams

/-- `build_records_v1_url` (app.py lines 632-682). -/
def build_records_v1_url
    (odsBase datasetId : String) (apikey : Option String)
    (q : Option String) (deptCodes : List String) (buyer : Option String)
    (cpvWhitelist : Option (List String)) (serviceCategoryEquals : Option String)
    (page pageSize : Int) (fields : ResolvedFields) : String :=
  let params := build_records_v1_params datasetId apikey q deptCodes buyer
    cpvWhitelist serviceCategoryEquals page pageSize fields
  rstripSlash odsBase ++ "/api/records/1.0/search/?" ++ urlencodePairs params

/-- `TRAINING_CPV_WHITELIST` (app.py lines 151-161). -/
def TRAINING_CPV_WHITELIST : List String :=
  ["80500000", "80510000", "80533100", "80570000", "80000000", "80553000",
   "79632000", "79952000"]

/-- `TRAINING_SERVICE_CATEGORY` (app.py line 175). -/
def TRAINING_SERVICE_CATEGORY : Int := 24

/-! ### Cache key (json.dumps with sort_keys=True, ensure_ascii=False) -/

/-- JSON string escaping of one character, as `json.dumps(..., ensure_ascii=False)`
performs it: backslash, double quote and control characters are escaped,
everything else passes through. -/
def jsonEscapeChar (c : Char) : String :=
  if c = '\\' then "\\\\"
  else if c = '\"' then "\\\""
  else if c = '\n' then "\\n"
  else if c = '\r' then "\\r"
  else if c = '\t' then "\\t"
  else if c.toNat = 8 then "\\b"
  else if c.toNat = 12 then "\\f"
  else if c.toNat < 32 then
    "\\u00" ++ String.mk [hexDigit (c.toNat / 16), hexDigit (c.toNat % 16)]
  else String.mk [c]

/-- A JSON string literal. -/
def jstr (s : String) : String :=
  "\"" ++ String.join (s.data.map jsonEscapeChar) ++ "\""

/-- A JSON array of strings, with json.dumps's default `", "` separator. -/
def jlist (xs : List String) : String :=
  "[" ++ joinSep ", " (xs.map jstr) ++ "]"

/-- `None`/string serialization. -/
def jopt : Option String → String
  | none => "null"
  | some s => jstr s

/-- Boolean serialization. -/
def jbool (b : Bool) : String := if b then "true" else "false"

/-- `json.dumps(fields.__dict__, sort_keys=True)`: the sixteen resolved
field names with keys in ASCII order. -/
def fieldsJson (fl : ResolvedFields) : String :=
  "\x7b\"budget\": " ++ jstr fl.budget
  ++ ", \"buyer\": " ++ jstr fl.buyer
  ++ ", \"buyerAddress\": " ++ jstr fl.buyerAddress
  ++ ", \"cpv\": " ++ jstr fl.cpv
  ++ ", \"date\": " ++ jstr fl.date
  ++ ", \"deadline\": " ++ jstr fl.deadline
  ++ ", \"dept\": " ++ jstr fl.dept
  ++ ", \"description\": " ++ jstr fl.description
  ++ ", \"marketType\": " ++ jstr fl.marketType
  ++ ", \"nature\": " ++ jstr fl.nature
  ++ ", \"place\": " ++ jstr fl.place
  ++ ", \"procedure\": " ++ jstr fl.procedure
  ++ ", \"ref\": " ++ jstr fl.ref
  ++ ", \"serviceCategory\": " ++ jstr fl.serviceCategory
  ++ ", \"title\": " ++ jstr fl.title
  ++ ", \"url\": " ++ jstr fl.url
  ++ "\x7d"

/-- The semantic filter input of `perform_search` (its keyword arguments,
app.py lines 768-780). -/
structure SearchFilter where
  q : String
  cpvPfx : String
  deptCodes : List String
  buyer : Option String
  dateFrom : Option String
  dateTo : Option String
  natureIn : Option (List String)
  useTraining : Bool
  page : Int
  pageSize : Int
  sort : Option String
  deriving DecidableEq, Repr

/-- The cache key of `perform_search` (app.py lines 818-837):
`json.dumps` of the filter dict with `sort_keys=True`, `ensure_ascii=False`;
`dept_codes` is sorted, `nature_in` is serialized in the order given
(`nature_in or []`), `sort` falls back to `""` (`sort or ""`). -/
def cache_key (odsBase datasetId : String) (f : SearchFilter)
    (fl : ResolvedFields) : String :=
  "\x7b\"base\": " ++ jstr odsBase
  ++ ", \"buyer\": " ++ jopt f.buyer
  ++ ", \"cpv_prefix\": " ++ jstr f.cpvPfx
  ++ ", \"dataset\": " ++ jstr datasetId
  ++ ", \"date_from\": " ++ jopt f.dateFrom
  ++ ", \"date_to\": " ++ jopt f.dateTo
  ++ ", \"dept_codes\": " ++ jlist (List.insertionSort (fun a b => a ≤ b) f.deptCodes)
  ++ ", \"fields\": " ++ fieldsJson fl
  ++ ", \"nature_in\": " ++ jlist (f.natureIn.getD [])
  ++ ", \"page\": " ++ toString f.page
  ++ ", \"page_size\": " ++ toString f.pageSize
  ++ ", \"q\": " ++ jstr f.q
  ++ ", \"sort\": " ++ jstr (f.sort.getD "")
  ++ ", \"use_training\": " ++ jbool f.useTraining
  ++ "\x7d"

/-! ### Result cache (app.py lines 685-696) -/

/-- The standardized result tuple `(records, total, debug_url, fields)`. -/
structure SearchTuple where
  records : List Json
  total : Json
  debugUrl : String
  fields : ResolvedFields

/-- One `_RESULTS_CACHE` entry: `{"value": ..., "ts": ...}`. -/
structure CacheEntry where
  value : SearchTuple
  ts : Rat

/-- The `_RESULTS_CACHE` dict, as an association list (first binding of a
key is its value). -/
abbrev Cache := List (String × CacheEntry)

/-- Dict lookup in the results cache. -/
def cacheLookup (c : Cache) (k : String) : Option CacheEntry :=
  (c.find? (fun p => p.1 == k)).map Prod.snd

/-- Dict key removal (`_RESULTS_CACHE.pop(key, None)`). -/
def cacheErase (c : Cache) (k : String) : Cache :=
  c.filter (fun p => p.1 != k)

/-- `_cache_get` (app.py lines 685-692), with the `pop` side effect made
explicit: returns the hit (if any) and the cache afterwards. -/
def cache_get (c : Cache) (k : String) (now ttl : Rat) :
    Option SearchTuple × Cache :=
  match cacheLookup c k with
  | none => (none, c)
  | some entry =>
    if now - entry.ts > ttl then (none, cacheErase c k)
    else (some entry.value, c)

/-- `_cache_set` (app.py lines 695-696): unconditional overwrite. -/
def cache_set (c : Cache) (k : String) (v : SearchTuple) (now : Rat) : Cache :=
  (k, ⟨v, now⟩) :: cacheErase c k

/-! ### Dialect execution and orchestration (app.py lines 699-917) -/

/-- The exceptions `perform_search`'s handlers distinguish:
`HTTPError` (with its status code), `URLError` (transport), `json.JSONDecodeError`,
and `shape` for the `TypeError`/`AttributeError` a non-object JSON payload
raises inside `_try_explore`/`_try_records_v1` (caught by no handler). -/
inductive PyErr where
  | http (code : Nat)
  | transport
  | parseJson
  | shape
  deriving DecidableEq, Repr

/-- `data.get(k)` where `data` must be a dict (otherwise `AttributeError`,
modelled as `PyErr.shape`). -/
def pyGet (data : Json) (k : String) : Except PyErr Json :=
  match data with
  | .obj kvs => .ok (((kvs.find? (fun p => p.1 == k)).map Prod.snd).getD .null)
  | _ => .error .shape

/-- `list(v or [])`: a falsy value gives `[]`; a list gives its elements; a
string iterates to its characters; a dict iterates to its keys; any other
truthy value raises `TypeError` (modelled as `PyErr.shape`). -/
def pyListOf (v : Json) : Except PyErr (List Json) :=
  if v.truthy then
    match v with
    | .arr xs => .ok xs
    | .str s => .ok (s.data.map (fun c => Json.str (String.mk [c])))
    | .obj kvs => .ok (kvs.map (fun p => Json.str p.1))
    | _ => .error .shape
  else .ok []

/-- `int(total) if isinstance(total, int) else total`: Python `bool` is an
`int`, so `True`/`False` become `1`/`0`; anything else passes through. -/
def pyIntOrSelf (total : Json) : Json :=
  match total with
  | .int n => .int n
  | .bool b => .int (if b then 1 else 0)
  | t => t

/-- Static configuration consumed by the orchestrator. -/
structure Config where
  odsBase : String
  datasetId : String
  apikey : Option String
  preferExplore : Bool
  resultsTtl : Rat

/-- `_try_explore` (app.py lines 699-736), with the HTTP response supplied
as an explicit outcome.  Note the source passes `sort=None` to
`build_explore_url` (line 726) even though it receives a `sort` argument. -/
def try_explore (cfg : Config) (f : SearchFilter) (fields : ResolvedFields)
    (resp : Except PyErr Json) : Except PyErr SearchTuple := do
  let cpvWhitelist := if f.useTraining then some TRAINING_CPV_WHITELIST else none
  let serviceCat := if f.useTraining then some (toString TRAINING_SERVICE_CATEGORY) else none
  let exploreUrl := build_explore_url cfg.odsBase cfg.datasetId cfg.apikey
    f.q f.cpvPfx f.deptCodes f.buyer serviceCat cpvWhitelist f.natureIn
    none f.dateFrom f.dateTo f.page f.pageSize fields
  let data ← resp
  let results ← pyGet data "results"
  let records ← pyListOf results
  let total ← pyGet data "total_count"
  return ⟨records, pyIntOrSelf total, exploreUrl, fields⟩

/-- The parameter list of the Explore URL `_try_explore` actually queries:
`build_explore_params` at the arguments of app.py lines 718-732
(in particular `sort=None`). -/
def try_explore_params (cfg : Config) (f : SearchFilter)
    (fields : ResolvedFields) : List (String × String) :=
  let cpvWhitelist := if f.useTraining then some TRAINING_CPV_WHITELIST else none
  let serviceCat := if f.useTraining then some (toString TRAINING_SERVICE_CATEGORY) else none
  build_explore_params cfg.apikey f.q f.cpvPfx f.deptCodes f.buyer serviceCat
    cpvWhitelist f.natureIn none f.dateFrom f.dateTo f.page f.pageSize fields

/-- `_try_records_v1` (app.py lines 739-765). -/
def try_records_v1 (cfg : Config) (f : SearchFilter) (fields : ResolvedFields)
    (resp : Except PyErr Json) : Except PyErr SearchTuple := do
  let cpvWhitelist := if f.useTraining then some TRAINING_CPV_WHITELIST else none
  let serviceCat := if f.useTraining then some (toString TRAINING_SERVICE_CATEGORY) else none
  let v1Url := build_records_v1_url cfg.odsBase cfg.datasetId cfg.apikey
    (if f.q != "" then some f.q else none) f.deptCodes f.buyer
    cpvWhitelist serviceCat f.page f.pageSize fields
  let data ← resp
  let recordsVal ← pyGet data "records"
  let records ← pyListOf recordsVal
  let total ← pyGet data "nhits"
  return ⟨records, pyIntOrSelf total, v1Url, fields⟩

/-- Which upstream query endpoints a `perform_search` run hit, in order. -/
inductive Dialect where
  | explore
  | v1
  deriving DecidableEq, Repr

/-- The fallback authorization of app.py lines 860-875: client-side HTTP
errors (400-499), transport errors and JSON-decode errors fall back; other
HTTP statuses and shape errors are re-raised. -/
def fallbackEligible : PyErr → Bool
  | .http code => 400 ≤ code && code ≤ 499
  | .transport => true
  | .parseJson => true
  | .shape => false

/-- `perform_search` (app.py lines 768-917).  `schemaRes` is the outcome of
`fetch_dataset_schema(force_refresh=False)`; `exploreResp` and `v1Resp` are
the HTTP outcomes the two dialect endpoints would return if queried.
Returns the result (or propagated exception), the results cache afterwards,
and the list of dialect endpoints actually queried, in order. -/
def perform_search (cfg : Config) (schemaRes : Except PyErr Json)
    (f : SearchFilter) (exploreResp v1Resp : Except PyErr Json)
    (cache : Cache) (now : Rat) :
    Except PyErr SearchTuple × Cache × List Dialect :=
  match schemaRes with
  | .error e => (.error e, cache, [])
  | .ok schema =>
    let fields := resolve_fields schema
    let key := cache_key cfg.odsBase cfg.datasetId f fields
    let (hit, cache1) := cache_get cache key now cfg.resultsTtl
    match hit with
    | some v => (.ok v, cache1, [])
    | none =>
      if cfg.preferExplore then
        match try_explore cfg f fields exploreResp with
        | .ok result => (.ok result, cache_set cache1 key result now, [.explore])
        | .error e =>
          if fallbackEligible e then
            match try_records_v1 cfg f fields v1Resp with
            | .ok result => (.ok result, cache_set cache1 key result now, [.explore, .v1])
            | .error e2 => (.error e2, cache1, [.explore, .v1])
          else (.error e, cache1, [.explore])
      else
        match try_records_v1 cfg f fields v1Resp with
        | .ok result => (.ok result, cache_set cache1 key result now, [.v1])
        | .error e =>
          match e with
          | .shape => (.error .shape, cache1, [.v1])
          | _ =>
            match try_explore cfg f fields exploreResp with
            | .ok result => (.ok result, cache_set cache1 key result now, [.v1, .explore])
            | .error e2 => (.error e2, cache1, [.v1, .explore])

/-! ### Schema store (app.py lines 333-443) -/

/-- `_SCHEMA_TTL_SECONDS` (app.py line 335). -/
def schemaTtlSeconds : Rat := 600

/-- The `_SCHEMA_CACHE` module global: `{"value": None, "ts": 0.0}`. -/
structure SchemaCache where
  value : Option Json
  ts : Rat

/-- `fetch_dataset_schema` (app.py lines 412-443), with the catalog HTTP
outcome supplied explicitly.  Returns the result (or propagated exception),
the schema cache afterwards, and whether a network fetch was performed. -/
def fetch_dataset_schema (forceRefresh : Bool) (sc : SchemaCache) (now : Rat)
    (fetchRes : Except PyErr Json) :
    Except PyErr Json × SchemaCache × Bool :=
  let cachedTruthy := match sc.value with
    | some v => v.truthy
    | none => false
  if (forceRefresh = false) ∧ (cachedTruthy = true) ∧ (now - sc.ts < schemaTtlSeconds) then
    (.ok ((sc.value).getD .null), sc, false)
  else
    match fetchRes with
    | .error e => (.error e, sc, true)
    | .ok schema => (.ok schema, ⟨some schema, now⟩, true)

/-! ### Record URL normalization (app.py lines 963-1012) -/

/-- `urllib.parse.urlparse(url).hostname or ""`, for the URL shapes the
base-URL configuration takes (`scheme://netloc/...`): the authority runs
from after `"://"` to the first `/`, `?` or `#`; userinfo (before `@`) and
the port (after the first `:`) are stripped; the host is lowercased.  A URL
with no `"://"` has no authority, giving `""`. -/
def hostnameOf (url : String) : String :=
  match breakOnAux "://".data url.data with
  | none => ""
  | some (_, after) =>
    let netloc := after.takeWhile (fun c => !(c == '/' || c == '?' || c == '#'))
    let hostinfo := (netloc.reverse.takeWhile (fun c => c != '@')).reverse
    String.mk ((hostinfo.takeWhile (fun c => c != ':')).map Char.toLower)

/-- The scheme of an absolute URL (text before the first `"://"`). -/
def schemeOf (url : String) : String :=
  match breakOnAux "://".data url.data with
  | none => ""
  | some (pre, _) => String.mk pre

/-- `scheme://netloc` of an absolute URL. -/
def schemeNetloc (url : String) : String :=
  match breakOnAux "://".data url.data with
  | none => ""
  | some (pre, after) =>
    let netloc := after.takeWhile (fun c => !(c == '/' || c == '?' || c == '#'))
    String.mk pre ++ "://" ++ String.mk netloc

/-- `urllib.parse.urljoin(base, url)` for the reference shapes reaching
`_normalize_record_url`: an absolute URL (it has a scheme) is returned
as-is; a network-path reference (`//...`) adopts the base's scheme; an
absolute path (`/...`) replaces the base's path; any other reference is
appended to the base's path (the base here always ends in `/`).
Dot-segment normalization is not modelled (no claim involves `.`/`..`
segments). -/
def urljoinModel (base url : String) : String :=
  if strContains url "://" then url
  else if charsStartWith url.data "//".data then schemeOf base ++ ":" ++ url
  else if charsStartWith url.data "/".data then schemeNetloc base ++ url
  else base ++ url

/-- `_normalize_record_url` (app.py lines 963-1012).  `Optional[str]`
arguments are modelled as `String` with `""` for `None`: the source only
tests their truthiness (where `None` and `""` agree) and interpolates them
when truthy. -/
def normalize_record_url (base datasetId rawUrl ref recordId : String) : String :=
  let baseNoSlash := rstripSlash base
  let host := hostnameOf baseNoSlash
  let datasetRecord :=
    if recordId != "" then
      baseNoSlash ++ "/explore/dataset/" ++ datasetId ++ "/record/?id=" ++ quotePlus recordId
    else baseNoSlash
  let isBoampPortal := strEndsWith host "boamp.fr"
  if rawUrl = "" then
    if isBoampPortal ∧ ref != "" then baseNoSlash ++ "/avis/detail/" ++ ref
    else datasetRecord
  else
    let href := urljoinModel (baseNoSlash ++ "/") rawUrl
    if href = baseNoSlash ++ "/" ∨ strContains href "/pages/entreprise-accueil" then
      if isBoampPortal ∧ ref != "" then baseNoSlash ++ "/avis/detail/" ++ ref
      else datasetRecord
    else href

/-! ### Helper lemmas -/

theorem pick_eq_findD (cands names : List String) (fb : String) :
    pick cands names fb = ((cands.find? (fun c => names.contains c)).getD fb) := by
  induction cands with
  | nil => rfl
  | cons c rest ih =>
    simp only [pick]
    cases hc : names.contains c with
    | true =>
      rw [if_pos rfl, List.find?_cons_of_pos _ hc, Option.getD_some]
    | false =>
      have hne : ¬ ((fun c => names.contains c) c = true) := fun h =>
        Bool.false_ne_true (hc.symm.trans (show names.contains c = true from h))
      rw [if_neg Bool.false_ne_true, List.find?_cons_of_neg _ hne, ih]

theorem pick_ne_empty (cands names : List String) (fb : String)
    (hc : ∀ c ∈ cands, c ≠ "") (hf : fb ≠ "") : pick cands names fb ≠ "" := by
  induction cands with
  | nil => exact hf
  | cons c rest ih =>
    simp only [pick]
    cases hcn : names.contains c with
    | true =>
      rw [if_pos rfl]
      exact hc c (List.mem_cons_self c rest)
    | false =>
      rw [if_neg Bool.false_ne_true]
      exact ih (fun x hx => hc x (List.mem_cons_of_mem c hx))

/-- A schema whose columns include `dateparution` but not `date_publication`. -/
def schemaWithDateparution : Json :=
  .obj [("dataset", .obj [("fields", .arr
    [.obj [("name", .str "dateparution")], .obj [("name", .str "objet")]])])]

/-- A schema containing none of the date candidates. -/
def schemaNoDateCandidate : Json :=
  .obj [("dataset", .obj [("fields", .arr [.obj [("name", .str "intitule")]])])]

/-- Claim C7: `resolve_fields` is total and, for each semantic slot, returns
the first name in that slot's ordered `FIELD_CANDIDATES` list occurring
among the schema's column names, or the slot's hardcoded default when none
occurs; a schema with column `dateparution` (and without `date_publication`)
resolves the date slot to `dateparution`, and a schema with no date
candidate resolves it to `record_timestamp` without error. -/
theorem c7_resolve_fields_first_candidate (schema : Json) :
    (let names := schemaNames schema
     let rf := resolve_fields schema
     rf.date = ((FIELD_CANDIDATES "date").find? (fun c => names.contains c)).getD "record_timestamp"
     ∧ rf.title = ((FIELD_CANDIDATES "title").find? (fun c => names.contains c)).getD "title"
     ∧ rf.url = ((FIELD_CANDIDATES "url").find? (fun c => names.contains c)).getD "permalink"
     ∧ rf.cpv = ((FIELD_CANDIDATES "cpv").find? (fun c => names.contains c)).getD "cpv"
     ∧ rf.dept = ((FIELD_CANDIDATES "dept").find? (fun c => names.contains c)).getD "departement"
     ∧ rf.buyer = ((FIELD_CANDIDATES "buyer").find? (fun c => names.contains c)).getD "acheteur"
     ∧ rf.description = ((FIELD_CANDIDATES "description").find? (fun c => names.contains c)).getD "description"
     ∧ rf.ref = ((FIELD_CANDIDATES "ref").find? (fun c => names.contains c)).getD "id"
     ∧ rf.serviceCategory = ((FIELD_CANDIDATES "serviceCategory").find? (fun c => names.contains c)).getD "categorie_services"
     ∧ rf.nature = ((FIELD_CANDIDATES "nature").find? (fun c => names.contains c)).getD "nature"
     ∧ rf.deadline = ((FIELD_CANDIDATES "deadline").find? (fun c => names.contains c)).getD "date_limite_remise_offres"
     ∧ rf.buyerAddress = ((FIELD_CANDIDATES "buyerAddress").find? (fun c => names.contains c)).getD "nom_et_adresse_officiels_de_l_organisme_acheteur"
     ∧ rf.budget = ((FIELD_CANDIDATES "budget").find? (fun c => names.contains c)).getD "montant"
     ∧ rf.procedure = ((FIELD_CANDIDATES "procedure").find? (fun c => names.contains c)).getD "procedure"
     ∧ rf.marketType = ((FIELD_CANDIDATES "marketType").find? (fun c => names.contains c)).getD "type_marche"
     ∧ rf.place = ((FIELD_CANDIDATES "place").find? (fun c => names.contains c)).getD "lieu_execution")
    ∧ (resolve_fields schemaWithDateparution).date = "dateparution"
    ∧ (resolve_fields schemaNoDateCandidate).date = "record_timestamp" := by
  refine ⟨?_, by decide, by decide⟩
  refine ⟨?_, ?_, ?_, ?_, ?_, ?_, ?_, ?_, ?_, ?_, ?_, ?_, ?_, ?_, ?_, ?_⟩ <;>
    exact pick_eq_findD _ _ _

/-- Claim C8: for every input schema, every slot of the `ResolvedFields`
value returned by `resolve_fields` holds a non-empty string. -/
theorem c8_resolved_fields_nonempty (schema : Json) :
    (resolve_fields schema).date ≠ ""
    ∧ (resolve_fields schema).title ≠ ""
    ∧ (resolve_fields schema).url ≠ ""
    ∧ (resolve_fields schema).cpv ≠ ""
    ∧ (resolve_fields schema).dept ≠ ""
    ∧ (resolve_fields schema).buyer ≠ ""
    ∧ (resolve_fields schema).description ≠ ""
    ∧ (resolve_fields schema).ref ≠ ""
    ∧ (resolve_fields schema).serviceCategory ≠ ""
    ∧ (resolve_fields schema).nature ≠ ""
    ∧ (resolve_fields schema).deadline ≠ ""
    ∧ (resolve_fields schema).buyerAddress ≠ ""
    ∧ (resolve_fields schema).budget ≠ ""
    ∧ (resolve_fields schema).procedure ≠ ""
    ∧ (resolve_fields schema).marketType ≠ ""
    ∧ (resolve_fields schema).place ≠ "" := by
  refine ⟨?_, ?_, ?_, ?_, ?_, ?_, ?_, ?_, ?_, ?_, ?_, ?_, ?_, ?_, ?_, ?_⟩ <;>
    exact pick_ne_empty _ _ _ (by decide) (by decide)

/-- Claim C3, counterexample: a department code containing a single quote is
embedded into the `where` expression verbatim — `build_explore_params` emits
`(departement IN ('7'5'))`, not the quote-doubled `7''5` form the claim
requires. -/
theorem c3_counterexample_dept_not_escaped :
    build_explore_params none "" "" ["7'5"] none none none none none none none 1 10 {} =
      [("where", "(departement IN ('7'5'))"), ("order_by", "-record_timestamp"),
       ("limit", "10"), ("offset", "0")]
    ∧ escapeQuotes "7'5" = "7''5"
    ∧ strContains "(departement IN ('7'5'))" "7''5" = false := by
  decide

/-- Claim C3 as amended: among the user-controlled strings embedded as
string literals in the primary dialect's `where` expression, the CPV
whitelist entries, the CPV prefix, the buyer substring, the
service-category value and the nature values have embedded single quotes
escaped by doubling; the department codes and the two date bounds are
embedded verbatim, with no escaping. -/
theorem c3_amended_escaping
    (wl : List String) (pfx : String) (codes : List String)
    (b cat : String) (nats : List String) (dfrom dto : String) (fl : ResolvedFields)
    (hwlv : ∀ c ∈ wl, pyStrip c ≠ "") (hwl : wl ≠ [])
    (hpfx : pfx ≠ "") (hcodes : codes ≠ [])
    (hb : b ≠ "") (hbt : pyStrip b ≠ "") (hcat : cat ≠ "")
    (hnatsv : ∀ v ∈ nats, pyStrip v ≠ "") (hnats : nats ≠ [])
    (hdf : dfrom ≠ "") (hdt : dto ≠ "") :
    exploreWhereParts pfx codes (some b) (some cat) (some wl) (some nats)
        (some dfrom) (some dto) fl =
      ["(" ++ joinSep " OR "
          (wl.map (fun c => "string(" ++ orD fl.cpv "cpv" ++ ") LIKE '%" ++ escapeQuotes c ++ "%'")) ++ ")",
       "(string(" ++ orD fl.cpv "cpv" ++ ") LIKE '" ++ escapeQuotes pfx ++ "%' OR string("
          ++ orD fl.cpv "cpv" ++ ") LIKE '%" ++ escapeQuotes pfx ++ "%')",
       "(" ++ orD fl.dept "departement" ++ " IN ("
          ++ joinSep "," (codes.map (fun c => "'" ++ c ++ "'")) ++ "))",
       "string(" ++ orD fl.buyer "acheteur" ++ ") LIKE '%" ++ escapeQuotes b ++ "%'",
       orD fl.serviceCategory "categorie_services" ++ " = '" ++ escapeQuotes cat ++ "'",
       "string(" ++ orD fl.nature "nature" ++ ") IN ("
          ++ joinSep "," (nats.map (fun v => "'" ++ escapeQuotes v ++ "'")) ++ ")",
       orD fl.date "record_timestamp" ++ " >= '" ++ dfrom ++ "'",
       orD fl.date "record_timestamp" ++ " <= '" ++ dto ++ "'"] := by
  have hwl' : wl.filter (fun c => pyStrip c != "") = wl :=
    List.filter_eq_self.mpr (fun a ha => by simpa using hwlv a ha)
  have hnats' : nats.filter (fun v => pyStrip v != "") = nats :=
    List.filter_eq_self.mpr (fun a ha => by simpa using hnatsv a ha)
  simp [exploreWhereParts, cpvWhitelistClauses, cpvPrefixClause, deptClause,
    serviceCategoryClause, natureClauses, dateFromClause, dateToClause,
    safe_like_fragment, hwl', hnats', hwl, hpfx, hcodes, hb, hbt, hcat,
    hnats, hdf, hdt]

/-- Witness for the amended C3 at inputs that all contain single quotes:
the whitelist entry, prefix, buyer, category and nature values come out
quote-doubled, the department code and date bounds come out raw. -/
theorem c3_amended_escaping_witness :
    (∀ c ∈ ["80'500"], pyStrip c ≠ "") ∧ (∀ v ∈ ["Ap'pel"], pyStrip v ≠ "") ∧
    exploreWhereParts "79'6" ["7'5"] (some "O'Reilly") (some "2'4")
        (some ["80'500"]) (some ["Ap'pel"]) (some "2024'01") (some "2025'12") {} =
      ["(string(cpv) LIKE '%80''500%')",
       "(string(cpv) LIKE '79''6%' OR string(cpv) LIKE '%79''6%')",
       "(departement IN ('7'5'))",
       "string(acheteur) LIKE '%O''Reilly%'",
       "categorie_services = '2''4'",
       "string(nature) IN ('Ap''pel')",
       "record_timestamp >= '2024'01'",
       "record_timestamp <= '2025'12'"] :=
  ⟨by decide, by decide,
    (c3_amended_escaping ["80'500"] "79'6" ["7'5"] "O'Reilly" "2'4" ["Ap'pel"]
        "2024'01" "2025'12" {} (by decide) (by decide) (by decide) (by decide)
        (by decide) (by decide) (by decide) (by decide) (by decide) (by decide)
        (by decide)).trans (by decide)⟩

/-- Claim C4: the Explore query URL the orchestrator actually sends ignores
the caller's requested sort — `_try_explore` passes `sort=None` to
`build_explore_url` — so even with `sort=deadline` and a resolved deadline
field the sent parameters order by the (descending) date field, while
`build_explore_url`'s own sort resolution (the claimed rule) would have
produced the deadline ordering. -/
theorem c4_sort_request_dropped :
    (try_explore_params ⟨"https://x.com", "boamp", none, true, 60⟩
        ⟨"kw", "", [], none, none, none, none, false, 1, 10, some "deadline"⟩
        { date := "dateparution" } =
      [("q", "kw"), ("order_by", "-dateparution"), ("limit", "10"), ("offset", "0")])
    ∧ ("order_by", "-date_limite_remise_offres") ∉
        try_explore_params ⟨"https://x.com", "boamp", none, true, 60⟩
          ⟨"kw", "", [], none, none, none, none, false, 1, 10, some "deadline"⟩
          { date := "dateparution" }
    ∧ exploreOrderBy (some "deadline") "kw" "dateparution" { date := "dateparution" } =
        ("order_by", "-date_limite_remise_offres") := by
  refine ⟨by decide, by decide, by decide⟩

set_option maxRecDepth 8192 in
/-- Claim C5, counterexample: the cache key is sensitive to the iteration
order of the nature set — `nature_in` is serialized as given, unsorted, so
two logically identical requests that list the natures in different orders
get different keys. -/
theorem c5_counterexample_nature_order :
    cache_key "https://boamp-datadila.opendatasoft.com" "boamp"
        ⟨"", "", [], none, none, none, some ["Attribution", "AppelOffre"], false, 1, 20, none⟩ {}
      ≠ cache_key "https://boamp-datadila.opendatasoft.com" "boamp"
        ⟨"", "", [], none, none, none, some ["AppelOffre", "Attribution"], false, 1, 20, none⟩ {} := by
  decide

/-- Claim C5 as amended: the cache key is a deterministic function of the
dataset base URL, dataset id, `SearchFilter` fields and `ResolvedFields`,
and is invariant under the iteration order of the department-code set
(which is sorted before serialization) — but not of the nature set. -/
theorem c5_amended_cache_key_dept_order_invariant (base ds : String)
    (f : SearchFilter) (fl : ResolvedFields) (d1 d2 : List String)
    (h : List.Perm d1 d2) :
    cache_key base ds { f with deptCodes := d1 } fl
      = cache_key base ds { f with deptCodes := d2 } fl := by
  have hsort : List.insertionSort (fun a b => a ≤ b) d1
      = List.insertionSort (fun a b => a ≤ b) d2 :=
    List.eq_of_perm_of_sorted
      ((List.perm_insertionSort _ d1).trans (h.trans (List.perm_insertionSort _ d2).symm))
      (List.sorted_insertionSort _ d1) (List.sorted_insertionSort _ d2)
  simp only [cache_key, hsort]

/-- A minimal `SearchFilter`, used by concrete instantiations below. -/
def sampleFilter : SearchFilter :=
  ⟨"", "", [], none, none, none, none, false, 1, 20, none⟩

/-- Witness for the amended C5: two orderings of the same department codes
produce byte-identical keys. -/
theorem c5_amended_witness :
    List.Perm ["93", "75"] ["75", "93"]
    ∧ cache_key "b" "d" { sampleFilter with deptCodes := ["93", "75"] } {}
        = cache_key "b" "d" { sampleFilter with deptCodes := ["75", "93"] } {} :=
  ⟨by decide,
   c5_amended_cache_key_dept_order_invariant "b" "d" sampleFilter {} ["93", "75"]
     ["75", "93"] (by decide)⟩

theorem cache_get_fresh (c : Cache) (k : String) (t ttl : Rat) (e : CacheEntry)
    (h1 : cacheLookup c k = some e) (h2 : t - e.ts ≤ ttl) :
    cache_get c k t ttl = (some e.value, c) := by
  simp only [cache_get, h1]
  rw [if_neg (not_lt.mpr h2)]

theorem cache_get_expired (c : Cache) (k : String) (t ttl : Rat) (e : CacheEntry)
    (h1 : cacheLookup c k = some e) (h2 : t - e.ts > ttl) :
    cache_get c k t ttl = (none, cacheErase c k) := by
  simp only [cache_get, h1]
  rw [if_pos h2]

theorem cacheLookup_erase (c : Cache) (k : String) :
    cacheLookup (cacheErase c k) k = none := by
  induction c with
  | nil => rfl
  | cons p rest ih =>
    by_cases hp : p.1 = k
    · have h1f : ¬ ((p.1 != k) = true) := by simp [hp]
      simp only [cacheErase, List.filter_cons]
      rw [if_neg h1f]
      simpa only [cacheErase] using ih
    · have h1 : (p.1 != k) = true := by simp [hp]
      have hbe : (p.1 == k) = false := by simp [hp]
      simp only [cacheErase, List.filter_cons]
      rw [if_pos h1]
      simp only [cacheLookup, List.find?_cons, hbe]
      simpa only [cacheErase, cacheLookup] using ih

theorem cacheLookup_cache_set (c : Cache) (k : String) (v : SearchTuple) (t : Rat) :
    cacheLookup (cache_set c k v t) k = some ⟨v, t⟩ := by
  show Option.map Prod.snd
    (List.find? (fun q => q.1 == k) ((k, (⟨v, t⟩ : CacheEntry)) :: cacheErase c k)) = _
  have hbe : ((k, (⟨v, t⟩ : CacheEntry)).1 == k) = true := by simp
  simp only [List.find?_cons, hbe]
  rfl

/-- Claim C6: a result-cache lookup within the TTL window returns the
stored tuple unchanged and `perform_search` then returns it with no network
call; a lookup of an entry older than the TTL removes it and reports a
miss; and `_cache_set` overwrites any existing entry unconditionally. -/
theorem c6_result_cache_contract (c : Cache) (k : String) (e : CacheEntry)
    (t ttl : Rat) (v : SearchTuple) (cfg : Config) (schema : Json)
    (f : SearchFilter) (eR vR : Except PyErr Json) :
    (cacheLookup c k = some e → t - e.ts ≤ ttl →
      cache_get c k t ttl = (some e.value, c))
    ∧ (cacheLookup c k = some e → t - e.ts > ttl →
      (cache_get c k t ttl).1 = none ∧ cacheLookup (cache_get c k t ttl).2 k = none)
    ∧ cacheLookup (cache_set c k v t) k = some ⟨v, t⟩
    ∧ (cacheLookup c (cache_key cfg.odsBase cfg.datasetId f (resolve_fields schema)) = some e →
      t - e.ts ≤ cfg.resultsTtl →
      perform_search cfg (.ok schema) f eR vR c t = (.ok e.value, c, [])) := by
  refine ⟨fun h1 h2 => cache_get_fresh c k t ttl e h1 h2, fun h1 h2 => ?_,
    cacheLookup_cache_set c k v t, fun h1 h2 => ?_⟩
  · rw [cache_get_expired c k t ttl e h1 h2]
    exact ⟨rfl, cacheLookup_erase c k⟩
  · have hget := cache_get_fresh c _ t cfg.resultsTtl e h1 h2
    simp only [perform_search, hget]

/-- Sample result tuples and caches used by the concrete instantiations. -/
def sampleTuple : SearchTuple := ⟨[], .null, "u", {}⟩

def sampleTuple2 : SearchTuple := ⟨[], .int 1, "u2", {}⟩

/-- A configuration preferring the Explore dialect. -/
def cfgExplore : Config := ⟨"https://x.com", "boamp", none, true, 60⟩

/-- A configuration preferring the Records v1 dialect. -/
def cfgV1 : Config := ⟨"https://x.com", "boamp", none, false, 60⟩

def sampleKey : String :=
  cache_key cfgExplore.odsBase cfgExplore.datasetId sampleFilter (resolve_fields (.obj []))

def sampleCache : Cache := [("k", ⟨sampleTuple, 0⟩)]

def sampleCacheHit : Cache := [(sampleKey, ⟨sampleTuple, 0⟩)]

set_option maxRecDepth 8192 in
/-- Witness for C6: a fresh entry is returned with the cache unchanged and
`perform_search` returns it with no dialect queried; an expired entry is
evicted and misses; `_cache_set` overwrites. -/
theorem c6_result_cache_contract_witness :
    (cacheLookup sampleCache "k" = some ⟨sampleTuple, 0⟩
      ∧ (30 : Rat) - 0 ≤ 60 ∧ (100 : Rat) - 0 > 60)
    ∧ cache_get sampleCache "k" 30 60 = (some sampleTuple, sampleCache)
    ∧ ((cache_get sampleCache "k" 100 60).1 = none
        ∧ cacheLookup (cache_get sampleCache "k" 100 60).2 "k" = none)
    ∧ cacheLookup (cache_set sampleCache "k" sampleTuple2 5) "k" = some ⟨sampleTuple2, 5⟩
    ∧ cacheLookup sampleCacheHit
        (cache_key cfgExplore.odsBase cfgExplore.datasetId sampleFilter (resolve_fields (.obj [])))
        = some ⟨sampleTuple, 0⟩
    ∧ perform_search cfgExplore (.ok (.obj [])) sampleFilter (.ok (.obj []))
        (.ok (.obj [])) sampleCacheHit 30 = (.ok sampleTuple, sampleCacheHit, []) :=
  ⟨⟨rfl, by norm_num, by norm_num⟩,
   (c6_result_cache_contract sampleCache "k" ⟨sampleTuple, 0⟩ 30 60 sampleTuple2 cfgExplore
     (.obj []) sampleFilter (.ok (.obj [])) (.ok (.obj []))).1 rfl
     (show (30 : Rat) - 0 ≤ 60 by norm_num),
   (c6_result_cache_contract sampleCache "k" ⟨sampleTuple, 0⟩ 100 60 sampleTuple2 cfgExplore
     (.obj []) sampleFilter (.ok (.obj [])) (.ok (.obj []))).2.1 rfl
     (show (100 : Rat) - 0 > 60 by norm_num),
   (c6_result_cache_contract sampleCache "k" ⟨sampleTuple, 0⟩ 5 60 sampleTuple2 cfgExplore
     (.obj []) sampleFilter (.ok (.obj [])) (.ok (.obj []))).2.2.1,
   rfl,
   (c6_result_cache_contract sampleCacheHit sampleKey ⟨sampleTuple, 0⟩ 30 60 sampleTuple2
     cfgExplore (.obj []) sampleFilter (.ok (.obj [])) (.ok (.obj []))).2.2.2 rfl
     (show (30 : Rat) - 0 ≤ 60 by norm_num)⟩

/-! ### Fallback policy (claims C1 and C2) -/

/-- The failure classes the specification says authorize fallback, stated
from the spec's words (an HTTP status in [400,499], a transport-level
error, or a JSON-parse failure), for comparison with the code's
`fallbackEligible` condition. -/
def claimEligible (e : PyErr) : Prop :=
  (∃ code, e = .http code ∧ 400 ≤ code ∧ code ≤ 499) ∨ e = .transport ∨ e = .parseJson

theorem fallbackEligible_iff (e : PyErr) :
    fallbackEligible e = true ↔ claimEligible e := by
  cases e <;> simp [fallbackEligible, claimEligible]

/-- On a cache miss with the Explore dialect preferred, `perform_search`
reduces to the Explore-then-maybe-v1 state machine. -/
theorem perform_search_miss_explore (cfg : Config) (schema : Json) (f : SearchFilter)
    (eR vR : Except PyErr Json) (cache : Cache) (now : Rat)
    (hpref : cfg.preferExplore = true)
    (hmiss : (cache_get cache (cache_key cfg.odsBase cfg.datasetId f
      (resolve_fields schema)) now cfg.resultsTtl).1 = none) :
    perform_search cfg (.ok schema) f eR vR cache now =
      match try_explore cfg f (resolve_fields schema) eR with
      | .ok result =>
        (.ok result,
         cache_set (cache_get cache (cache_key cfg.odsBase cfg.datasetId f
           (resolve_fields schema)) now cfg.resultsTtl).2
           (cache_key cfg.odsBase cfg.datasetId f (resolve_fields schema)) result now,
         [.explore])
      | .error e =>
        if fallbackEligible e then
          match try_records_v1 cfg f (resolve_fields schema) vR with
          | .ok result =>
            (.ok result,
             cache_set (cache_get cache (cache_key cfg.odsBase cfg.datasetId f
               (resolve_fields schema)) now cfg.resultsTtl).2
               (cache_key cfg.odsBase cfg.datasetId f (resolve_fields schema)) result now,
             [.explore, .v1])
          | .error e2 =>
            (.error e2,
             (cache_get cache (cache_key cfg.odsBase cfg.datasetId f
               (resolve_fields schema)) now cfg.resultsTtl).2,
             [.explore, .v1])
        else
          (.error e,
           (cache_get cache (cache_key cfg.odsBase cfg.datasetId f
             (resolve_fields schema)) now cfg.resultsTtl).2,
           [.explore]) := by
  rcases hc : cache_get cache (cache_key cfg.odsBase cfg.datasetId f
      (resolve_fields schema)) now cfg.resultsTtl with ⟨hit, cache1⟩
  rw [hc] at hmiss
  simp only [Prod.fst] at hmiss
  subst hmiss
  simp only [perform_search, hc, hpref, if_true]

/-- On a cache miss with the Records v1 dialect preferred, `perform_search`
reduces to the v1-then-maybe-Explore state machine; note every non-`shape`
error — HTTP of any status included — reaches the Explore attempt. -/
theorem perform_search_miss_v1 (cfg : Config) (schema : Json) (f : SearchFilter)
    (eR vR : Except PyErr Json) (cache : Cache) (now : Rat)
    (hpref : cfg.preferExplore = false)
    (hmiss : (cache_get cache (cache_key cfg.odsBase cfg.datasetId f
      (resolve_fields schema)) now cfg.resultsTtl).1 = none) :
    perform_search cfg (.ok schema) f eR vR cache now =
      match try_records_v1 cfg f (resolve_fields schema) vR with
      | .ok result =>
        (.ok result,
         cache_set (cache_get cache (cache_key cfg.odsBase cfg.datasetId f
           (resolve_fields schema)) now cfg.resultsTtl).2
           (cache_key cfg.odsBase cfg.datasetId f (resolve_fields schema)) result now,
         [.v1])
      | .error .shape =>
        (.error .shape,
         (cache_get cache (cache_key cfg.odsBase cfg.datasetId f
           (resolve_fields schema)) now cfg.resultsTtl).2,
         [.v1])
      | .error _ =>
        match try_explore cfg f (resolve_fields schema) eR with
        | .ok result =>
          (.ok result,
           cache_set (cache_get cache (cache_key cfg.odsBase cfg.datasetId f
             (resolve_fields schema)) now cfg.resultsTtl).2
             (cache_key cfg.odsBase cfg.datasetId f (resolve_fields schema)) result now,
           [.v1, .explore])
        | .error e2 =>
          (.error e2,
           (cache_get cache (cache_key cfg.odsBase cfg.datasetId f
             (resolve_fields schema)) now cfg.resultsTtl).2,
           [.v1, .explore]) := by
  rcases hc : cache_get cache (cache_key cfg.odsBase cfg.datasetId f
      (resolve_fields schema)) now cfg.resultsTtl with ⟨hit, cache1⟩
  rw [hc] at hmiss
  simp only [Prod.fst] at hmiss
  subst hmiss
  simp only [perform_search, hc, hpref, Bool.false_eq_true, if_false]
  rcases try_records_v1 cfg f (resolve_fields schema) vR with e | r
  · cases e <;> rfl
  · rfl

/-- The results-cache key `perform_search` computes for a given
configuration, schema and filter. -/
def searchKey (cfg : Config) (schema : Json) (f : SearchFilter) : String :=
  cache_key cfg.odsBase cfg.datasetId f (resolve_fields schema)

theorem perform_search_explore_ok (cfg : Config) (schema : Json) (f : SearchFilter)
    (eR vR : Except PyErr Json) (cache : Cache) (now : Rat) (r : SearchTuple)
    (hpref : cfg.preferExplore = true)
    (hmiss : (cache_get cache (searchKey cfg schema f) now cfg.resultsTtl).1 = none)
    (hexp : try_explore cfg f (resolve_fields schema) eR = .ok r) :
    perform_search cfg (.ok schema) f eR vR cache now =
      (.ok r,
       cache_set (cache_get cache (searchKey cfg schema f) now cfg.resultsTtl).2
         (searchKey cfg schema f) r now,
       [.explore]) := by
  simp only [searchKey] at hmiss ⊢
  rcases hc : cache_get cache (cache_key cfg.odsBase cfg.datasetId f
      (resolve_fields schema)) now cfg.resultsTtl with ⟨hit, cache1⟩
  rw [hc] at hmiss
  simp only [Prod.fst] at hmiss
  subst hmiss
  simp only [perform_search, hc, hpref, if_true, hexp]

theorem perform_search_explore_err_v1_ok (cfg : Config) (schema : Json)
    (f : SearchFilter) (eR vR : Except PyErr Json) (cache : Cache) (now : Rat)
    (e : PyErr) (r : SearchTuple)
    (hpref : cfg.preferExplore = true)
    (hmiss : (cache_get cache (searchKey cfg schema f) now cfg.resultsTtl).1 = none)
    (hexp : try_explore cfg f (resolve_fields schema) eR = .error e)
    (helig : fallbackEligible e = true)
    (hv1 : try_records_v1 cfg f (resolve_fields schema) vR = .ok r) :
    perform_search cfg (.ok schema) f eR vR cache now =
      (.ok r,
       cache_set (cache_get cache (searchKey cfg schema f) now cfg.resultsTtl).2
         (searchKey cfg schema f) r now,
       [.explore, .v1]) := by
  simp only [searchKey] at hmiss ⊢
  rcases hc : cache_get cache (cache_key cfg.odsBase cfg.datasetId f
      (resolve_fields schema)) now cfg.resultsTtl with ⟨hit, cache1⟩
  rw [hc] at hmiss
  simp only [Prod.fst] at hmiss
  subst hmiss
  simp only [perform_search, hc, hpref, if_true, hexp, helig, hv1]

theorem perform_search_explore_err_v1_err (cfg : Config) (schema : Json)
    (f : SearchFilter) (eR vR : Except PyErr Json) (cache : Cache) (now : Rat)
    (e e2 : PyErr)
    (hpref : cfg.preferExplore = true)
    (hmiss : (cache_get cache (searchKey cfg schema f) now cfg.resultsTtl).1 = none)
    (hexp : try_explore cfg f (resolve_fields schema) eR = .error e)
    (helig : fallbackEligible e = true)
    (hv1 : try_records_v1 cfg f (resolve_fields schema) vR = .error e2) :
    perform_search cfg (.ok schema) f eR vR cache now =
      (.error e2,
       (cache_get cache (searchKey cfg schema f) now cfg.resultsTtl).2,
       [.explore, .v1]) := by
  simp only [searchKey] at hmiss ⊢
  rcases hc : cache_get cache (cache_key cfg.odsBase cfg.datasetId f
      (resolve_fields schema)) now cfg.resultsTtl with ⟨hit, cache1⟩
  rw [hc] at hmiss
  simp only [Prod.fst] at hmiss
  subst hmiss
  simp only [perform_search, hc, hpref, if_true, hexp, helig, hv1]

theorem perform_search_explore_err_no_fallback (cfg : Config) (schema : Json)
    (f : SearchFilter) (eR vR : Except PyErr Json) (cache : Cache) (now : Rat)
    (e : PyErr)
    (hpref : cfg.preferExplore = true)
    (hmiss : (cache_get cache (searchKey cfg schema f) now cfg.resultsTtl).1 = none)
    (hexp : try_explore cfg f (resolve_fields schema) eR = .error e)
    (helig : fallbackEligible e = false) :
    perform_search cfg (.ok schema) f eR vR cache now =
      (.error e,
       (cache_get cache (searchKey cfg schema f) now cfg.resultsTtl).2,
       [.explore]) := by
  simp only [searchKey] at hmiss ⊢
  rcases hc : cache_get cache (cache_key cfg.odsBase cfg.datasetId f
      (resolve_fields schema)) now cfg.resultsTtl with ⟨hit, cache1⟩
  rw [hc] at hmiss
  simp only [Prod.fst] at hmiss
  subst hmiss
  simp only [perform_search, hc, hpref, if_true, hexp, helig,
    Bool.false_eq_true, if_false]

/-- Claim C1: with the Explore dialect preferred and a result-cache miss,
`perform_search` attempts the Records v1 dialect exactly once iff the
Explore attempt fails with an HTTP status in [400,499], a transport-level
error, or a JSON-parse failure; an Explore failure with HTTP status ≥ 500
is propagated to the caller with no v1 attempt; and a successful v1
fallback is cached under the computed key and returned. -/
theorem c1_explore_fallback_policy (cfg : Config) (schema : Json) (f : SearchFilter)
    (eR vR : Except PyErr Json) (cache : Cache) (now : Rat)
    (hpref : cfg.preferExplore = true)
    (hmiss : (cache_get cache (searchKey cfg schema f) now cfg.resultsTtl).1 = none) :
    ((perform_search cfg (.ok schema) f eR vR cache now).2.2 = [.explore]
      ∨ (perform_search cfg (.ok schema) f eR vR cache now).2.2 = [.explore, .v1])
    ∧ ((perform_search cfg (.ok schema) f eR vR cache now).2.2 = [.explore, .v1] ↔
        ∃ e, try_explore cfg f (resolve_fields schema) eR = .error e ∧ claimEligible e)
    ∧ (∀ code, 500 ≤ code →
        try_explore cfg f (resolve_fields schema) eR = .error (.http code) →
        (perform_search cfg (.ok schema) f eR vR cache now).1 = .error (.http code)
          ∧ (perform_search cfg (.ok schema) f eR vR cache now).2.2 = [.explore])
    ∧ (∀ e r, try_explore cfg f (resolve_fields schema) eR = .error e →
        claimEligible e →
        try_records_v1 cfg f (resolve_fields schema) vR = .ok r →
        (perform_search cfg (.ok schema) f eR vR cache now).1 = .ok r
          ∧ cacheLookup (perform_search cfg (.ok schema) f eR vR cache now).2.1
              (searchKey cfg schema f) = some ⟨r, now⟩
          ∧ (perform_search cfg (.ok schema) f eR vR cache now).2.2 = [.explore, .v1]) := by
  rcases hexp : try_explore cfg f (resolve_fields schema) eR with e | r
  case error =>
    by_cases helig : fallbackEligible e = true
    · rcases hv1 : try_records_v1 cfg f (resolve_fields schema) vR with e2 | r2
      · have hrun := perform_search_explore_err_v1_err cfg schema f eR vR cache now
          e e2 hpref hmiss hexp helig hv1
        refine ⟨Or.inr (by rw [hrun]),
          ⟨fun _ => ⟨e, rfl, (fallbackEligible_iff e).mp helig⟩, fun _ => by rw [hrun]⟩,
          ?_, ?_⟩
        · intro code h500 hexp2
          injection hexp2 with he
          subst he
          simp only [fallbackEligible, Bool.and_eq_true, decide_eq_true_eq] at helig
          omega
        · intro e' r' hexp' helig' hv1'
          simp at hv1'
      · have hrun := perform_search_explore_err_v1_ok cfg schema f eR vR cache now
          e r2 hpref hmiss hexp helig hv1
        refine ⟨Or.inr (by rw [hrun]),
          ⟨fun _ => ⟨e, rfl, (fallbackEligible_iff e).mp helig⟩, fun _ => by rw [hrun]⟩,
          ?_, ?_⟩
        · intro code h500 hexp2
          injection hexp2 with he
          subst he
          simp only [fallbackEligible, Bool.and_eq_true, decide_eq_true_eq] at helig
          omega
        · intro e' r' hexp' helig' hv1'
          injection hv1' with hr
          subst hr
          rw [hrun]
          exact ⟨rfl, cacheLookup_cache_set _ _ _ _, rfl⟩
    · have heligf : fallbackEligible e = false := by
        cases hfe : fallbackEligible e
        · rfl
        · exact absurd hfe helig
      have hrun := perform_search_explore_err_no_fallback cfg schema f eR vR cache now
        e hpref hmiss hexp heligf
      refine ⟨Or.inl (by rw [hrun]), ⟨?_, ?_⟩, ?_, ?_⟩
      · intro hattempts
        rw [hrun] at hattempts
        simp at hattempts
      · rintro ⟨e', hexp2, hclaim⟩
        injection hexp2 with he
        subst he
        exact absurd ((fallbackEligible_iff _).mpr hclaim) helig
      · intro code h500 hexp2
        injection hexp2 with he
        subst he
        rw [hrun]
        exact ⟨rfl, rfl⟩
      · intro e' r' hexp2 hclaim hv1'
        injection hexp2 with he
        subst he
        exact absurd ((fallbackEligible_iff _).mpr hclaim) helig
  case ok =>
    have hrun := perform_search_explore_ok cfg schema f eR vR cache now r hpref hmiss hexp
    refine ⟨Or.inl (by rw [hrun]), ⟨?_, ?_⟩, ?_, ?_⟩
    · intro hattempts
      rw [hrun] at hattempts
      simp at hattempts
    · rintro ⟨e', hexp2, _⟩
      simp at hexp2
    · intro code h500 hexp2
      simp at hexp2
    · intro e' r' hexp2 _ _
      simp at hexp2

/-- Witness for C1: a 404 from the Explore attempt triggers exactly one
v1 attempt. -/
theorem c1_explore_fallback_policy_witness :
    cfgExplore.preferExplore = true
    ∧ (cache_get [] (searchKey cfgExplore (.obj []) sampleFilter) 0
        cfgExplore.resultsTtl).1 = none
    ∧ (perform_search cfgExplore (.ok (.obj [])) sampleFilter (.error (.http 404))
        (.ok (.obj [])) [] 0).2.2 = [.explore, .v1] :=
  ⟨rfl, rfl,
   (c1_explore_fallback_policy cfgExplore (.obj []) sampleFilter (.error (.http 404))
       (.ok (.obj [])) [] 0 rfl rfl).2.1.mpr
     ⟨.http 404, rfl, Or.inl ⟨404, rfl, by norm_num, by norm_num⟩⟩⟩

theorem perform_search_v1_ok (cfg : Config) (schema : Json) (f : SearchFilter)
    (eR vR : Except PyErr Json) (cache : Cache) (now : Rat) (r : SearchTuple)
    (hpref : cfg.preferExplore = false)
    (hmiss : (cache_get cache (searchKey cfg schema f) now cfg.resultsTtl).1 = none)
    (hv1 : try_records_v1 cfg f (resolve_fields schema) vR = .ok r) :
    perform_search cfg (.ok schema) f eR vR cache now =
      (.ok r,
       cache_set (cache_get cache (searchKey cfg schema f) now cfg.resultsTtl).2
         (searchKey cfg schema f) r now,
       [.v1]) := by
  simp only [searchKey] at hmiss ⊢
  rcases hc : cache_get cache (cache_key cfg.odsBase cfg.datasetId f
      (resolve_fields schema)) now cfg.resultsTtl with ⟨hit, cache1⟩
  rw [hc] at hmiss
  simp only [Prod.fst] at hmiss
  subst hmiss
  simp only [perform_search, hc, hpref, Bool.false_eq_true, if_false, hv1]

theorem perform_search_v1_shape (cfg : Config) (schema : Json) (f : SearchFilter)
    (eR vR : Except PyErr Json) (cache : Cache) (now : Rat)
    (hpref : cfg.preferExplore = false)
    (hmiss : (cache_get cache (searchKey cfg schema f) now cfg.resultsTtl).1 = none)
    (hv1 : try_records_v1 cfg f (resolve_fields schema) vR = .error .shape) :
    perform_search cfg (.ok schema) f eR vR cache now =
      (.error .shape,
       (cache_get cache (searchKey cfg schema f) now cfg.resultsTtl).2,
       [.v1]) := by
  simp only [searchKey] at hmiss ⊢
  rcases hc : cache_get cache (cache_key cfg.odsBase cfg.datasetId f
      (resolve_fields schema)) now cfg.resultsTtl with ⟨hit, cache1⟩
  rw [hc] at hmiss
  simp only [Prod.fst] at hmiss
  subst hmiss
  simp only [perform_search, hc, hpref, Bool.false_eq_true, if_false, hv1]

theorem perform_search_v1_err_explore_ok (cfg : Config) (schema : Json)
    (f : SearchFilter) (eR vR : Except PyErr Json) (cache : Cache) (now : Rat)
    (e : PyErr) (r : SearchTuple)
    (hpref : cfg.preferExplore = false)
    (hmiss : (cache_get cache (searchKey cfg schema f) now cfg.resultsTtl).1 = none)
    (hv1 : try_records_v1 cfg f (resolve_fields schema) vR = .error e)
    (hne : e ≠ .shape)
    (hexp : try_explore cfg f (resolve_fields schema) eR = .ok r) :
    perform_search cfg (.ok schema) f eR vR cache now =
      (.ok r,
       cache_set (cache_get cache (searchKey cfg schema f) now cfg.resultsTtl).2
         (searchKey cfg schema f) r now,
       [.v1, .explore]) := by
  simp only [searchKey] at hmiss ⊢
  rcases hc : cache_get cache (cache_key cfg.odsBase cfg.datasetId f
      (resolve_fields schema)) now cfg.resultsTtl with ⟨hit, cache1⟩
  rw [hc] at hmiss
  simp only [Prod.fst] at hmiss
  subst hmiss
  simp only [perform_search, hc, hpref, Bool.false_eq_true, if_false, hv1]
  cases e
  case shape => exact absurd rfl hne
  all_goals simp only [hexp]

theorem perform_search_v1_err_explore_err (cfg : Config) (schema : Json)
    (f : SearchFilter) (eR vR : Except PyErr Json) (cache : Cache) (now : Rat)
    (e e2 : PyErr)
    (hpref : cfg.preferExplore = false)
    (hmiss : (cache_get cache (searchKey cfg schema f) now cfg.resultsTtl).1 = none)
    (hv1 : try_records_v1 cfg f (resolve_fields schema) vR = .error e)
    (hne : e ≠ .shape)
    (hexp : try_explore cfg f (resolve_fields schema) eR = .error e2) :
    perform_search cfg (.ok schema) f eR vR cache now =
      (.error e2,
       (cache_get cache (searchKey cfg schema f) now cfg.resultsTtl).2,
       [.v1, .explore]) := by
  simp only [searchKey] at hmiss ⊢
  rcases hc : cache_get cache (cache_key cfg.odsBase cfg.datasetId f
      (resolve_fields schema)) now cfg.resultsTtl with ⟨hit, cache1⟩
  rw [hc] at hmiss
  simp only [Prod.fst] at hmiss
  subst hmiss
  simp only [perform_search, hc, hpref, Bool.false_eq_true, if_false, hv1]
  cases e
  case shape => exact absurd rfl hne
  all_goals simp only [hexp]

theorem pyErr_kind (e : PyErr) (hne : e ≠ .shape) :
    (∃ code, e = .http code) ∨ e = .transport ∨ e = .parseJson := by
  cases e
  case http code => exact Or.inl ⟨code, rfl⟩
  case transport => exact Or.inr (Or.inl rfl)
  case parseJson => exact Or.inr (Or.inr rfl)
  case shape => exact absurd rfl hne

/-- Claim C2, counterexample: with the v1 dialect preferred, an HTTP 503
from the v1 attempt is not surfaced — the Explore dialect is attempted and
its successful result returned. -/
theorem c2_counterexample_503_falls_back :
    (perform_search cfgV1 (.ok (.obj [])) sampleFilter (.ok (.obj []))
        (.error (.http 503)) [] 0).2.2 = [.v1, .explore]
    ∧ ∃ r, (perform_search cfgV1 (.ok (.obj [])) sampleFilter (.ok (.obj []))
        (.error (.http 503)) [] 0).1 = .ok r :=
  ⟨rfl, ⟨_, rfl⟩⟩

/-- Claim C2 as amended: when the Records v1 dialect is preferred, the
fallback policy is not status-discriminating — any HTTP error (status ≥ 500
included), transport error, or JSON-parse failure from the v1 attempt
authorizes exactly one Explore attempt, and a successful Explore fallback
is cached and returned. -/
theorem c2_amended_v1_fallback_policy (cfg : Config) (schema : Json) (f : SearchFilter)
    (eR vR : Except PyErr Json) (cache : Cache) (now : Rat)
    (hpref : cfg.preferExplore = false)
    (hmiss : (cache_get cache (searchKey cfg schema f) now cfg.resultsTtl).1 = none) :
    ((perform_search cfg (.ok schema) f eR vR cache now).2.2 = [.v1]
      ∨ (perform_search cfg (.ok schema) f eR vR cache now).2.2 = [.v1, .explore])
    ∧ ((perform_search cfg (.ok schema) f eR vR cache now).2.2 = [.v1, .explore] ↔
        ∃ e, try_records_v1 cfg f (resolve_fields schema) vR = .error e
          ∧ ((∃ code, e = .http code) ∨ e = .transport ∨ e = .parseJson))
    ∧ (∀ code r, try_records_v1 cfg f (resolve_fields schema) vR = .error (.http code) →
        try_explore cfg f (resolve_fields schema) eR = .ok r →
        (perform_search cfg (.ok schema) f eR vR cache now).1 = .ok r
          ∧ cacheLookup (perform_search cfg (.ok schema) f eR vR cache now).2.1
              (searchKey cfg schema f) = some ⟨r, now⟩
          ∧ (perform_search cfg (.ok schema) f eR vR cache now).2.2 = [.v1, .explore]) := by
  rcases hv1 : try_records_v1 cfg f (resolve_fields schema) vR with e | r
  case error =>
    by_cases he : e = PyErr.shape
    · subst he
      have hrun := perform_search_v1_shape cfg schema f eR vR cache now hpref hmiss hv1
      refine ⟨Or.inl (by rw [hrun]), ⟨?_, ?_⟩, ?_⟩
      · intro hattempts
        rw [hrun] at hattempts
        simp at hattempts
      · rintro ⟨e', hv1', hkind⟩
        injection hv1' with he'
        subst he'
        rcases hkind with ⟨code, hk⟩ | hk | hk <;> simp at hk
      · intro code r hv1' _
        simp at hv1'
    · rcases hexp : try_explore cfg f (resolve_fields schema) eR with e2 | r2
      · have hrun := perform_search_v1_err_explore_err cfg schema f eR vR cache now
          e e2 hpref hmiss hv1 he hexp
        refine ⟨Or.inr (by rw [hrun]),
          ⟨fun _ => ⟨e, rfl, pyErr_kind e he⟩, fun _ => by rw [hrun]⟩, ?_⟩
        intro code r hv1' hexp'
        simp at hexp'
      · have hrun := perform_search_v1_err_explore_ok cfg schema f eR vR cache now
          e r2 hpref hmiss hv1 he hexp
        refine ⟨Or.inr (by rw [hrun]),
          ⟨fun _ => ⟨e, rfl, pyErr_kind e he⟩, fun _ => by rw [hrun]⟩, ?_⟩
        intro code r hv1' hexp'
        injection hexp' with hr
        subst hr
        rw [hrun]
        exact ⟨rfl, cacheLookup_cache_set _ _ _ _, rfl⟩
  case ok =>
    have hrun := perform_search_v1_ok cfg schema f eR vR cache now r hpref hmiss hv1
    refine ⟨Or.inl (by rw [hrun]), ⟨?_, ?_⟩, ?_⟩
    · intro hattempts
      rw [hrun] at hattempts
      simp at hattempts
    · rintro ⟨e', hv1', _⟩
      simp at hv1'
    · intro code r' hv1' _
      simp at hv1'

/-- Witness for the amended C2: a 503 from the v1 attempt triggers exactly
one Explore attempt. -/
theorem c2_amended_v1_fallback_policy_witness :
    cfgV1.preferExplore = false
    ∧ (cache_get [] (searchKey cfgV1 (.obj []) sampleFilter) 0
        cfgV1.resultsTtl).1 = none
    ∧ (perform_search cfgV1 (.ok (.obj [])) sampleFilter (.ok (.obj []))
        (.error (.http 503)) [] 0).2.2 = [.v1, .explore] :=
  ⟨rfl, rfl,
   (c2_amended_v1_fallback_policy cfgV1 (.obj []) sampleFilter (.ok (.obj []))
       (.error (.http 503)) [] 0 rfl rfl).2.1.mpr ⟨.http 503, rfl, Or.inl ⟨503, rfl⟩⟩⟩

/-- Claim C9: when the configured base host ends with `boamp.fr` and a
reference is available, `_normalize_record_url` returns
`{base}/avis/detail/{ref}` whenever the raw URL is absent, resolves to
exactly the portal root, or contains the generic landing path
`/pages/entreprise-accueil`; and with no raw URL, record id and reference
at all it returns the bare dataset base URL. -/
theorem c9_normalize_record_url (base datasetId rawUrl ref recordId : String) :
    (strEndsWith (hostnameOf (rstripSlash base)) "boamp.fr" = true → ref ≠ "" →
      rawUrl = "" →
      normalize_record_url base datasetId rawUrl ref recordId
        = rstripSlash base ++ "/avis/detail/" ++ ref)
    ∧ (strEndsWith (hostnameOf (rstripSlash base)) "boamp.fr" = true → ref ≠ "" →
      rawUrl ≠ "" →
      (urljoinModel (rstripSlash base ++ "/") rawUrl = rstripSlash base ++ "/"
        ∨ strContains (urljoinModel (rstripSlash base ++ "/") rawUrl)
            "/pages/entreprise-accueil" = true) →
      normalize_record_url base datasetId rawUrl ref recordId
        = rstripSlash base ++ "/avis/detail/" ++ ref)
    ∧ (rawUrl = "" → recordId = "" → ref = "" →
      normalize_record_url base datasetId rawUrl ref recordId = rstripSlash base) := by
  refine ⟨?_, ?_, ?_⟩
  · intro hhost href hraw
    subst hraw
    simp only [normalize_record_url]
    rw [if_pos trivial, if_pos ⟨hhost, by simpa using href⟩]
  · intro hhost href hraw hcond
    simp only [normalize_record_url]
    rw [if_neg hraw, if_pos hcond, if_pos ⟨hhost, by simpa using href⟩]
  · intro hraw hrec href
    subst hraw
    simp only [normalize_record_url]
    rw [if_pos trivial, if_neg (fun h => absurd h.2 (by simp [href])),
      if_neg (by simp [hrec])]

/-- Witness for C9 at the concrete inputs of the spec's examples. -/
theorem c9_normalize_record_url_witness :
    strEndsWith (hostnameOf (rstripSlash "https://www.boamp.fr")) "boamp.fr" = true
    ∧ ("24-12345" : String) ≠ ""
    ∧ normalize_record_url "https://www.boamp.fr" "boamp" "" "24-12345" ""
        = "https://www.boamp.fr/avis/detail/24-12345"
    ∧ strContains (urljoinModel (rstripSlash "https://www.boamp.fr" ++ "/")
        "/pages/entreprise-accueil") "/pages/entreprise-accueil" = true
    ∧ normalize_record_url "https://www.boamp.fr" "boamp" "/pages/entreprise-accueil"
        "24-12345" "rec1" = "https://www.boamp.fr/avis/detail/24-12345"
    ∧ normalize_record_url "https://x.opendatasoft.com" "boamp" "" "" ""
        = "https://x.opendatasoft.com" :=
  ⟨by decide, by decide,
   ((c9_normalize_record_url "https://www.boamp.fr" "boamp" "" "24-12345" "").1
     (by decide) (by decide) rfl).trans (by decide),
   by decide,
   ((c9_normalize_record_url "https://www.boamp.fr" "boamp" "/pages/entreprise-accueil"
       "24-12345" "rec1").2.1
     (by decide) (by decide) (by decide) (Or.inr (by decide))).trans (by decide),
   ((c9_normalize_record_url "https://x.opendatasoft.com" "boamp" "" "" "").2.2
     rfl rfl rfl).trans (by decide)⟩

/-- Claim C10: a failed catalog fetch (HTTP, transport, or JSON-parse
error) propagates out of `fetch_dataset_schema` and leaves the process-wide
schema cache untouched — value and timestamp are replaced only after a
successful fetch — so a subsequent non-forced call within the TTL still
returns the previously cached snapshot, with no network fetch. -/
theorem c10_schema_fetch_failure_preserves_cache (force : Bool) (sc : SchemaCache)
    (now now2 : Rat) (res res2 : Except PyErr Json) (e : PyErr) (v : Json) :
    (res = .error e → force = true →
      fetch_dataset_schema force sc now res = (.error e, sc, true))
    ∧ (res = .error e → sc.value = none →
      fetch_dataset_schema force sc now res = (.error e, sc, true))
    ∧ (res = .error e → schemaTtlSeconds ≤ now - sc.ts →
      fetch_dataset_schema force sc now res = (.error e, sc, true))
    ∧ (sc.value = some v → v.truthy = true → now2 - sc.ts < schemaTtlSeconds →
      fetch_dataset_schema false sc now2 res2 = (.ok v, sc, false)) := by
  refine ⟨?_, ?_, ?_, ?_⟩
  · intro hres hforce
    subst hres
    simp only [fetch_dataset_schema]
    rw [if_neg (fun h => absurd h.1 (by simp [hforce]))]
  · intro hres hval
    subst hres
    simp only [fetch_dataset_schema, hval]
    rw [if_neg (fun h => Bool.false_ne_true h.2.1)]
  · intro hres httl
    subst hres
    simp only [fetch_dataset_schema]
    rw [if_neg (fun h => absurd h.2.2 (not_lt.mpr httl))]
  · intro hval htruthy httl
    simp only [fetch_dataset_schema, hval]
    rw [if_pos ⟨trivial, htruthy, httl⟩]
    rfl

/-- Witness for C10: a transport failure leaves a warm cache unchanged and
a subsequent non-forced call within the TTL serves the cached snapshot. -/
theorem c10_schema_fetch_failure_preserves_cache_witness :
    ((⟨some (.obj [("x", .int 1)]), 0⟩ : SchemaCache).value = some (.obj [("x", .int 1)])
      ∧ (Json.obj [("x", .int 1)]).truthy = true
      ∧ (50 : Rat) - 0 < schemaTtlSeconds)
    ∧ fetch_dataset_schema true ⟨some (.obj [("x", .int 1)]), 0⟩ 50 (.error .transport)
        = (.error .transport, ⟨some (.obj [("x", .int 1)]), 0⟩, true)
    ∧ fetch_dataset_schema false ⟨some (.obj [("x", .int 1)]), 0⟩ 50 (.error .transport)
        = (.ok (.obj [("x", .int 1)]), ⟨some (.obj [("x", .int 1)]), 0⟩, false) :=
  ⟨⟨rfl, rfl, by norm_num [schemaTtlSeconds]⟩,
   (c10_schema_fetch_failure_preserves_cache true ⟨some (.obj [("x", .int 1)]), 0⟩
       50 50 (.error .transport) (.error .transport) .transport
       (.obj [("x", .int 1)])).1 rfl rfl,
   (c10_schema_fetch_failure_preserves_cache true ⟨some (.obj [("x", .int 1)]), 0⟩
       50 50 (.error .transport) (.error .transport) .transport
       (.obj [("x", .int 1)])).2.2.2 rfl rfl
     (show (50 : Rat) - 0 < schemaTtlSeconds by norm_num [schemaTtlSeconds])⟩

end Boamp


